import Mathlib

/-!
Verification of the meridian3 telemetry pipeline
(Packetizer → Corruptor → Cleaner → AnomalyDetector → MissionStorage).

Shallow embedding conventions, applied uniformly:

* Python float values are modelled as exact rationals (`ℚ`); Python float
  literals such as `0.01` or `1e-6` are read as the corresponding exact
  rationals.  `float("inf")` / `float("-inf")` are the dedicated constructors
  `Val.inf` / `Val.ninf`.  NaN never arises on any pipeline path and is not
  modelled.
* Python dicts with string keys are modelled as insertion-ordered association
  lists `List (String × Val)`; key sets are unique in every state the Python
  code can build, and updates are modelled as value replacement at the key.
* `random.*` draws are modelled as explicit inputs: the per-packet
  `CorruptPlan` records the outcome of every draw `Corruptor.corrupt_packet`
  makes (loss decision, jitter, per-field corruption decision and style).
  A fixed seed fixes the plan sequence.
* `time.time()` is modelled as an explicit clock input (one value per use
  that can reach persisted state).
* The SHA-256 digest truncated to 64 bits, computed over the canonical JSON
  of header+payload, is modelled as the pair of header and payload itself,
  i.e. as an injective digest: verification succeeds exactly when the hashed
  data is unchanged.  This abstracts hash collisions away, which is the
  reading every stated property intends.
* `len(json.dumps(...))` (only used for the advisory `packet_size` header
  field, whose numeric value no property depends on) is modelled by a fixed
  structural size function.
* Exceptions (`TypeError` from arithmetic/comparisons on unsupported
  operand types, `ValueError` from unknown encodings) are modelled with
  `Except PyError`.  Arithmetic on `±inf` (e.g. an infinite timestamp
  reaching subtraction) is mapped to `TypeError` as well; no pipeline state
  reachable from well-formed frames performs arithmetic on `±inf`, and every
  theorem below stays inside the finite-arithmetic region.
* Per-stage statistics counters (`self.stats`) are write-only from the point
  of view of every property treated here and are omitted from the state.
-/

mutual
/-- A Python value as it can appear in a telemetry field map:
a numeric (int/float, with `bool` kept separate because Python treats
`True`/`False` as the integers 1/0 wherever `isinstance(v, (int, float))`
tests succeed), a string, `None`, `±inf`, or a nested dict
(an insertion-ordered key/value list, `ValDict`). -/
inductive Val where
  | num (q : ℚ)
  | str (s : String)
  | vnone
  | inf
  | ninf
  | bool (b : Bool)
  | dict (entries : ValDict)
  deriving DecidableEq
inductive ValDict where
  | nil
  | cons (key : String) (value : Val) (rest : ValDict)
  deriving DecidableEq
end

/-- `d.get(k)` on a nested dict value. -/
def ValDict.get (d : ValDict) (k : String) : Option Val :=
  match d with
  | .nil => none
  | .cons k₀ v₀ rest => if k₀ = k then some v₀ else rest.get k

/-- A Python dict with string keys, in insertion order. -/
abbrev Telem := List (String × Val)

/-- `d.get(k)` / `k in d` lookup on an insertion-ordered dict. -/
def getVal (t : Telem) (k : String) : Option Val :=
  match t with
  | [] => none
  | (k₀, v₀) :: rest => if k₀ = k then some v₀ else getVal rest k

/-- `isinstance(v, (int, float))` together with extraction of the finite
numeric content: `True`/`False` count as 1/0.  `±inf` satisfies the Python
`isinstance` test but carries no finite value and is handled separately at
each use site. -/
def Val.finite? : Val → Option ℚ
  | .num q => some q
  | .bool b => some (if b then 1 else 0)
  | _ => none

/-- `isinstance(v, (int, float))` exactly: numerics, booleans and `±inf`. -/
def Val.isNumeric : Val → Bool
  | .num _ => true
  | .bool _ => true
  | .inf => true
  | .ninf => true
  | _ => false

/-- Python `v < q` for a telemetry value against a float constant; `none`
models the `TypeError` raised on unsupported operand types. -/
def pyLtQ (v : Val) (q : ℚ) : Option Bool :=
  match v with
  | .num x => some (decide (x < q))
  | .bool b => some (decide ((if b then (1 : ℚ) else 0) < q))
  | .inf => some false
  | .ninf => some true
  | _ => none

/-- Python `v > q` for a telemetry value against a float constant. -/
def pyGtQ (v : Val) (q : ℚ) : Option Bool :=
  match v with
  | .num x => some (decide (x > q))
  | .bool b => some (decide ((if b then (1 : ℚ) else 0) > q))
  | .inf => some true
  | .ninf => some false
  | _ => none

/-- Python truthiness (`if v:`). -/
def Val.truthy : Val → Bool
  | .num q => decide (q ≠ 0)
  | .str s => decide (s ≠ "")
  | .vnone => false
  | .inf => true
  | .ninf => true
  | .bool b => b
  | .dict l => decide (l ≠ .nil)

/-- Python `a == b` on the values that can meet in a timestamp comparison:
numerics compare by value (`True == 1`), `±inf` compare by identity of sign,
strings and `None` structurally; dicts are compared structurally (Python
dict equality is key-set based, which coincides on the insertion orders the
pipeline ever builds); mixed types are unequal. -/
def pyEq (a b : Val) : Bool :=
  match a.finite?, b.finite? with
  | some x, some y => decide (x = y)
  | _, _ => decide (a = b)

deriving instance DecidableEq for Except

/-- The error taxonomy the embedded code can raise. -/
inductive PyError where
  | typeError
  | valueError (msg : String)
  deriving DecidableEq

/-- Numeric extraction that raises `TypeError` (as Python binary arithmetic
does on unsupported operands; `±inf` is also mapped here, see the header
comment). -/
def valNumE (v : Val) : Except PyError ℚ :=
  match v.finite? with
  | some q => .ok q
  | none => .error .typeError

/-- Python `a - b` on two telemetry values (used on timestamps). -/
def pySubE (a b : Val) : Except PyError ℚ := do
  let x ← valNumE a
  let y ← valNumE b
  return x - y

/-- Last `n` elements of a list (the tail a `deque(maxlen=n)` retains). -/
def takeLast (n : ℕ) (l : List α) : List α :=
  l.drop (l.length - n)

/-- `deque(maxlen=n).append x`: append and evict from the left beyond `n`. -/
def appendBounded (n : ℕ) (l : List α) (x : α) : List α :=
  takeLast n (l ++ [x])

/-! ## Packetizer (src/meridian3/src/pipeline/packetizer.py) -/

/-- Packet header (`packet_id`, `timestamp`, `frame_id`, `encoding`,
`priority`, `packet_size`).  `timestamp` and `frame_id` are copied from the
frame dict unchecked, hence `Val`-typed. -/
structure Header where
  packet_id : ℕ
  timestamp : Val
  frame_id : Val
  encoding : String
  priority : ℤ
  packet_size : ℕ
  deriving DecidableEq

/-- Packet payload: the telemetry copy, plus the `compression_note` key the
`compressed` fallback adds. -/
structure Payload where
  telemetry : Telem
  compression_note : Option String
  deriving DecidableEq

/-- The 64-bit truncated SHA-256 digest over the canonical JSON of
header+payload, modelled injectively as the hashed data itself
(see header comment). -/
abbrev Checksum := Header × Payload

/-- Packet footer.  `corruption_detected` / `corrupted_fields` are absent
until the Corruptor adds them, hence `Option`-typed. -/
structure Footer where
  checksum : Checksum
  transmission_time : ℚ
  corruption_detected : Option Bool
  corrupted_fields : Option (List String)
  deriving DecidableEq

structure Packet where
  header : Header
  payload : Payload
  footer : Footer
  deriving DecidableEq

/-- `Packetizer` state: encoding mode and the monotone packet counter. -/
structure Packetizer where
  encoding : String
  packet_counter : ℕ
  deriving DecidableEq

/-- `Packetizer.__init__`: records the mode and zeroes the counter.  The
constructor body performs no validation and cannot raise. -/
def packetizerInit (encoding : String) : Packetizer :=
  { encoding := encoding, packet_counter := 0 }

/-- `Packetizer._calculate_priority`, line for line.  `Except` carries the
`TypeError` Python raises when a designated field holds a non-comparable
value, and the `AttributeError` of `env_info.get` on a non-dict is folded
into the same error value. -/
def calcPriority (frame : Telem) : Except PyError ℤ := do
  let priority : ℤ := 5
  -- if frame.get('battery_soc', 100) < 20: priority = 10
  -- elif frame.get('battery_soc', 100) < 40: priority = 8
  let soc := (getVal frame "battery_soc").getD (.num 100)
  let priority ←
    match pyLtQ soc 20 with
    | none => .error .typeError
    | some true => pure (10 : ℤ)
    | some false =>
      match pyLtQ soc 40 with
      | none => .error .typeError
      | some true => pure (8 : ℤ)
      | some false => pure priority
  -- battery_temp = frame.get('battery_temp', 0)
  -- if battery_temp < -20 or battery_temp > 60: priority = 9
  let battery_temp := (getVal frame "battery_temp").getD (.num 0)
  let priority ←
    match pyLtQ battery_temp (-20) with
    | none => .error .typeError
    | some true => pure (9 : ℤ)
    | some false =>
      match pyGtQ battery_temp 60 with
      | none => .error .typeError
      | some true => pure (9 : ℤ)
      | some false => pure priority
  -- if frame.get('env_info', {}).get('is_science_window', False): priority = max(priority, 6)
  let priority ←
    match getVal frame "env_info" with
    | none => pure priority
    | some (.dict entries) =>
      let flag := (entries.get "is_science_window").getD (.bool false)
      pure (if flag.truthy then max priority 6 else priority)
    | some _ => .error .typeError
  -- if frame.get('velocity', 0) > 0.01: priority = max(priority, 5)
  let vel := (getVal frame "velocity").getD (.num 0)
  match pyGtQ vel (1 / 100) with
  | none => .error .typeError
  | some true => return max priority 5
  | some false => return priority

/-- `Packetizer._encode_payload`: `raw` copies the frame, `compressed` falls
back to raw plus a note, anything else raises `ValueError`. -/
def encodePayload (encoding : String) (frame : Telem) : Except PyError Payload :=
  if encoding = "raw" then
    .ok { telemetry := frame, compression_note := none }
  else if encoding = "compressed" then
    .ok { telemetry := frame,
          compression_note := some "Compression not yet implemented" }
  else
    .error (.valueError ("Unknown encoding: " ++ encoding))

mutual
/-- Structural size of a value, standing in for the length of its JSON
rendering (see the header comment on `_estimate_size`). -/
def Val.size : Val → ℕ
  | .num _ => 1
  | .str s => s.length
  | .vnone => 1
  | .inf => 1
  | .ninf => 1
  | .bool _ => 1
  | .dict entries => 1 + entries.size
def ValDict.size : ValDict → ℕ
  | .nil => 0
  | .cons k v rest => k.length + v.size + rest.size
end

/-- Structural size of a telemetry map. -/
def telemSize (t : Telem) : ℕ :=
  (t.map (fun kv => kv.1.length + kv.2.size)).sum

/-- `Packetizer._estimate_size`: a fixed function of the pre-size header
fields and the payload, standing in for `len(json.dumps(...))`. -/
def estimateSize (packet_id : ℕ) (timestamp frame_id : Val) (encoding : String)
    (priority : ℤ) (payload : Payload) : ℕ :=
  packet_id + timestamp.size + frame_id.size + encoding.length
    + priority.natAbs + telemSize payload.telemetry

/-- `Packetizer._calculate_checksum`: the injective digest model. -/
def calcChecksum (header : Header) (payload : Payload) : Checksum :=
  (header, payload)

/-- `Packetizer.encode_frame`.  `now` is the `time.time()` value that
becomes the footer transmission time (the two other `time.time()` calls
only feed the omitted statistics). -/
def encodeFrame (pz : Packetizer) (frame : Telem) (now : ℚ) :
    Except PyError (Packet × Packetizer) := do
  let priority ← calcPriority frame
  let timestamp := (getVal frame "timestamp").getD (.num 0)
  let frame_id := (getVal frame "frame_id").getD (.num (-1))
  let payload ← encodePayload pz.encoding frame
  let packet_size :=
    estimateSize pz.packet_counter timestamp frame_id pz.encoding priority payload
  let header : Header :=
    { packet_id := pz.packet_counter, timestamp := timestamp,
      frame_id := frame_id, encoding := pz.encoding,
      priority := priority, packet_size := packet_size }
  let checksum := calcChecksum header payload
  let footer : Footer :=
    { checksum := checksum, transmission_time := now,
      corruption_detected := none, corrupted_fields := none }
  return ({ header := header, payload := payload, footer := footer },
          { pz with packet_counter := pz.packet_counter + 1 })

/-- `Packetizer.verify_checksum`: recompute over the packet as it stands and
compare with the stored digest. -/
def verifyChecksum (packet : Packet) : Bool :=
  decide (calcChecksum packet.header packet.payload = packet.footer.checksum)

/-! ## Corruptor (src/meridian3/src/pipeline/corruptor.py)

`Corruptor.corrupt_packet` draws: one uniform for the loss decision, one
Gaussian for the jitter, and per payload field one uniform (corrupt this
field?), one 3-way choice of corruption type and, for `distort` on a
numeric, one 3-way choice of distortion style plus its draw.  A
`CorruptPlan` records all these outcomes for one packet; a fixed seed fixes
the plan sequence of a run. -/

/-- Outcome of the distortion-style draws inside `_distort_value` for a
numeric value: Gaussian noise (the drawn noise), a scale factor chosen from
`[0.01, 0.1, 10, 100, 1000]`, or an extreme replacement chosen from
`[999999, -999999, inf, -inf]`. -/
inductive DistortKind where
  | noise (n : ℚ)
  | scale (i : Fin 5)
  | extreme (i : Fin 4)

/-- Outcome of the per-field corruption-type draw. -/
inductive CorruptMode where
  | remove
  | distort (d : DistortKind)
  | typeError

/-- All random outcomes of one `corrupt_packet` call. -/
structure CorruptPlan where
  lost : Bool
  jitter : ℚ
  fieldMode : String → Option CorruptMode

/-- The scale factors `[0.01, 0.1, 10, 100, 1000]`. -/
def scaleFactors : Fin 5 → ℚ
  | 0 => 1 / 100
  | 1 => 1 / 10
  | 2 => 10
  | 3 => 100
  | 4 => 1000

/-- The extreme replacements `[999999, -999999, float('inf'), float('-inf')]`. -/
def extremeVals : Fin 4 → Val
  | 0 => .num 999999
  | 1 => .num (-999999)
  | 2 => .inf
  | 3 => .ninf

/-- `Corruptor._distort_value` for the chosen distortion style.  A numeric
(int/float/bool — and `±inf`, which no pipeline payload carries undistorted)
gets the numeric distortion; a string becomes `"CORRUPTED"`; dicts and
anything else become `None`. -/
def distortValue (v : Val) (d : DistortKind) : Val :=
  match v.finite? with
  | some q =>
    match d with
    | .noise n => .num (q + n)
    | .scale i => .num (q * scaleFactors i)
    | .extreme i => extremeVals i
  | none =>
    match v with
    | .inf =>
      match d with
      | .noise _ => .inf
      | .scale _ => .inf
      | .extreme i => extremeVals i
    | .ninf =>
      match d with
      | .noise _ => .ninf
      | .scale _ => .ninf
      | .extreme i => extremeVals i
    | .str _ => .str "CORRUPTED"
    | _ => .vnone

/-- The effect of one per-field plan entry on the field value
(`remove` stores `None`, keeping the key). -/
def corruptField (mode : CorruptMode) (v : Val) : Val :=
  match mode with
  | .remove => .vnone
  | .distort d => distortValue v d
  | .typeError => .str "CORRUPTED"

/-- `Corruptor.corrupt_packet`: loss check, deep copy, jitter on the footer
send time, independent per-field corruption with the corrupted-field list
accumulated in iteration order, and the corruption flags written to the
footer; the stored checksum is never recomputed. -/
def corruptPacket (plan : CorruptPlan) (packet : Packet) : Option Packet :=
  if plan.lost then
    none
  else
    let telemetry := packet.payload.telemetry
    let newTelemetry : Telem := telemetry.map (fun kv =>
      match plan.fieldMode kv.1 with
      | none => kv
      | some mode => (kv.1, corruptField mode kv.2))
    let corrupted_fields : List String :=
      (telemetry.map Prod.fst).filter (fun k => (plan.fieldMode k).isSome)
    let corruption_occurred := corrupted_fields ≠ []
    some
      { packet with
        payload := { packet.payload with telemetry := newTelemetry },
        footer :=
          { packet.footer with
            transmission_time := packet.footer.transmission_time + plan.jitter,
            corruption_detected := some (decide corruption_occurred),
            corrupted_fields := some corrupted_fields } }

/-! ## Cleaner (src/meridian3/src/pipeline/cleaner.py) -/

/-- `Cleaner.VALID_RANGES`. -/
def VALID_RANGES (field : String) : Option (ℚ × ℚ) :=
  if field = "battery_voltage" then some (20, 35)
  else if field = "battery_current" then some (-10, 10)
  else if field = "battery_soc" then some (0, 100)
  else if field = "battery_temp" then some (-40, 60)
  else if field = "solar_voltage" then some (0, 50)
  else if field = "solar_current" then some (0, 5)
  else if field = "roll" then some (-180, 180)
  else if field = "pitch" then some (-180, 180)
  else if field = "heading" then some (0, 360)
  else if field = "motor_temp" then some (-100, 80)
  else if field = "electronics_temp" then some (-100, 70)
  else if field = "power_board_temp" then some (-100, 70)
  else if field = "x" then some (-10000, 10000)
  else if field = "y" then some (-10000, 10000)
  else if field = "z" then some (-1000, 1000)
  else if field = "velocity" then some (0, 2)
  else none

/-- `Cleaner.RATE_LIMITS`. -/
def RATE_LIMITS (field : String) : Option ℚ :=
  if field = "battery_soc" then some 5
  else if field = "battery_voltage" then some 2
  else if field = "battery_temp" then some 1
  else if field = "x" then some 2
  else if field = "y" then some 2
  else if field = "velocity" then some (1 / 2)
  else none

/-- One entry of `metadata['repairs']`. -/
structure RepairRec where
  field : String
  method : String
  original : Val
  repaired : Val
  deriving DecidableEq

/-- One entry of `metadata['anomalies']` as the detector serialises it. -/
structure AnomalyOut where
  field : String
  value : ℚ
  anomaly_type : String
  severity : String
  description : String
  timestamp : Val
  deriving DecidableEq

/-- A CleanFrame metadata dict.  `source` is only present on interpolated
frames; `anomalies` only after the detector ran. -/
structure CleanMeta where
  quality : String
  repairs : List RepairRec
  warnings : List String
  checksum_valid : Bool
  source : Option String
  anomalies : Option (List AnomalyOut)
  deriving DecidableEq

/-- A cleaned telemetry frame. -/
structure CleanFrame where
  timestamp : Val
  frame_id : Val
  data : Telem
  metadata : CleanMeta
  deriving DecidableEq

/-- `Cleaner` state: the bounded frame history (oldest first). -/
structure Cleaner where
  history_size : ℕ
  frame_history : List CleanFrame
  deriving DecidableEq

/-- `Cleaner._get_default_value`: midpoint of the valid range, else 0. -/
def defaultValue (field : String) : ℚ :=
  match VALID_RANGES field with
  | some (lo, hi) => (lo + hi) / 2
  | none => 0

/-- `Cleaner._interpolate_field`: linear interpolation of `field` at
`timestamp` from the last two history entries carrying a numeric value for
it.  Python computes `slope = (v2-v1)/(t2-t1)` and then
`v1 + slope*(t-t1)` only under `t2 != t1`, so the division is never by an
equal pair; subtraction of non-numeric timestamps raises `TypeError`. -/
def interpolateField (st : Cleaner) (field : String) (timestamp : Val) :
    Except PyError (Option ℚ) := do
  if st.frame_history.length < 2 then
    return none
  else
    let values_with_time : List (Val × ℚ) :=
      st.frame_history.filterMap (fun f =>
        match getVal f.data field with
        | some v =>
          match v.finite? with
          | some q => some (f.timestamp, q)
          | none => none
        | none => none)
    match values_with_time.reverse with
    | (t2, v2) :: (t1, v1) :: _ =>
      if pyEq t2 t1 then
        return some v2
      else do
        let dt ← pySubE t2 t1
        let slope := (v2 - v1) / dt
        let dts ← pySubE timestamp t1
        return some (v1 + slope * dts)
    | _ => return none

/-- `Cleaner._clean_field`, case 5 (rate-of-change) and the clean
pass-through.  `value` is the original value, `q` its numeric content. -/
def cleanFieldRate (st : Cleaner) (field : String) (value : Val) (q : ℚ)
    (timestamp : Val) : Except PyError (Val × Bool × String) := do
  match RATE_LIMITS field with
  | some max_rate =>
    match st.frame_history.getLast? with
    | some last_frame =>
      match getVal last_frame.data field with
      | some last_value => do
        let lastq ← valNumE last_value
        let dt ← pySubE timestamp last_frame.timestamp
        if dt > 0 then
          let rate := |q - lastq| / dt
          if rate > max_rate then
            match ← interpolateField st field timestamp with
            | some q₂ => return (.num q₂, true, "interpolation_rate_limit")
            | none => return (last_value, true, "last_value_rate_limit")
          else
            return (value, false, "none")
        else
          return (value, false, "none")
      | none => return (value, false, "none")
    | none => return (value, false, "none")
  | none => return (value, false, "none")

/-- `Cleaner._clean_field`: the fixed first-match-wins repair ladder.
Returns the cleaned value, whether it was repaired, and the method name. -/
def cleanField (st : Cleaner) (field : String) (value : Val) (timestamp : Val) :
    Except PyError (Val × Bool × String) := do
  -- Case 1: value is None
  if value = Val.vnone then
    match ← interpolateField st field timestamp with
    | some q => return (.num q, true, "interpolation_none")
    | none => return (.num (defaultValue field), true, "default_value")
  -- Case 2: value is wrong type (not int/float)
  else if ¬ value.isNumeric then
    match ← interpolateField st field timestamp with
    | some q => return (.num q, true, "interpolation_type_error")
    | none => return (.num (defaultValue field), true, "default_type_error")
  else
    -- Case 3: value is extreme: not (-1e6 < value < 1e6); `±inf` fails the
    -- band test, finite numerics are compared exactly
    match value.finite? with
    | none =>
      match ← interpolateField st field timestamp with
      | some q => return (.num q, true, "interpolation_extreme")
      | none => return (.num (defaultValue field), true, "default_extreme")
    | some q =>
      if ¬ (-1000000 < q ∧ q < 1000000) then
        match ← interpolateField st field timestamp with
        | some q₂ => return (.num q₂, true, "interpolation_extreme")
        | none => return (.num (defaultValue field), true, "default_extreme")
      else
        -- Case 4: range violation is clamped
        match VALID_RANGES field with
        | some lohi =>
          if ¬ (lohi.1 ≤ q ∧ q ≤ lohi.2) then
            return (.num (max lohi.1 (min lohi.2 q)), true, "range_clamp")
          else
            cleanFieldRate st field value q timestamp
        | none => cleanFieldRate st field value q timestamp

/-- `Cleaner._interpolate_lost_frame`: extrapolate a whole frame from the
last two history entries.  Returns `none` when history is too short (the
caller guards this). -/
def interpolateLostFrame (st : Cleaner) : Except PyError (Option CleanFrame) := do
  match st.frame_history.reverse with
  | frame2 :: frame1 :: _ => do
    let t1 ← valNumE frame1.timestamp
    let t2 ← valNumE frame2.timestamp
    let dt := t2 - t1
    let estimated_timestamp := t2 + dt
    let data : Telem := frame2.data.map (fun kv =>
      match getVal frame1.data kv.1 with
      | some v1 =>
        match v1.finite?, kv.2.finite? with
        | some q1, some q2 => (kv.1, Val.num (q2 + (q2 - q1)))
        | _, _ => kv
      | none => kv)
    return some
      { timestamp := .num estimated_timestamp,
        frame_id := .num (-1),
        data := data,
        metadata :=
          { quality := "interpolated",
            repairs := [],
            warnings := ["Entire frame interpolated due to packet loss"],
            checksum_valid := false,
            source := none,
            anomalies := none } }
  | _ => return none

/-- `Cleaner.clean_packet`.  A lost packet (argument `none`) is recovered by
interpolation only when history holds at least two frames; a present packet
is cleaned field by field, its quality derived from the corruption flag and
the repair count, and the resulting frame appended to the bounded history.
The unreachable `none` arm after the history-length guard mirrors the
`TypeError` Python would raise subscripting `None`. -/
def cleanPacket (st : Cleaner) (packet : Option Packet) :
    Except PyError (Option CleanFrame × Cleaner) := do
  match packet with
  | none =>
    if 2 ≤ st.frame_history.length then do
      match ← interpolateLostFrame st with
      | some f =>
        let f := { f with metadata :=
          { f.metadata with quality := "interpolated",
                            source := some "history_interpolation" } }
        return (some f, st)
      | none => .error .typeError
    else
      return (none, st)
  | some pkt => do
    let checksum_valid := ! (pkt.footer.corruption_detected.getD false)
    let telemetry := pkt.payload.telemetry
    let timestamp := pkt.header.timestamp
    let cleaned ← telemetry.mapM (fun kv => do
      let r ← cleanField st kv.1 kv.2 timestamp
      return (kv.1, r))
    let data : Telem := cleaned.map (fun kr => (kr.1, kr.2.1))
    let repairs : List RepairRec := (telemetry.zip cleaned).filterMap (fun p =>
      if p.2.2.2.1 then
        some { field := p.1.1, method := p.2.2.2.2,
               original := p.1.2, repaired := p.2.2.1 }
      else none)
    let repair_count := repairs.length
    let quality :=
      if repair_count > 3 then "low"
      else if repair_count > 0 then "medium"
      else if checksum_valid then "high" else "degraded"
    let clean_frame : CleanFrame :=
      { timestamp := timestamp,
        frame_id := pkt.header.frame_id,
        data := data,
        metadata :=
          { quality := quality,
            repairs := repairs,
            warnings := [],
            checksum_valid := checksum_valid,
            source := none,
            anomalies := none } }
    return (some clean_frame,
            { st with frame_history :=
                appendBounded st.history_size st.frame_history clean_frame })

/-! ## AnomalyDetector (src/meridian3/src/pipeline/anomalies.py) -/

/-- Association-list lookup (Python dict access), generic in the value. -/
def alookup (l : List (String × β)) (k : String) : Option β :=
  match l with
  | [] => none
  | (k₀, v₀) :: rest => if k₀ = k then some v₀ else alookup rest k

/-- The up-to-four named bounds of one `THRESHOLDS` entry. -/
structure ThresholdSpec where
  low_warning : Option ℚ
  low_critical : Option ℚ
  high_warning : Option ℚ
  high_critical : Option ℚ
  deriving DecidableEq

/-- `AnomalyDetector.THRESHOLDS`. -/
def THRESHOLDS (field : String) : Option ThresholdSpec :=
  if field = "battery_soc" then
    some { low_warning := some 30, low_critical := some 15,
           high_warning := none, high_critical := none }
  else if field = "battery_temp" then
    some { low_warning := some (-10), low_critical := some (-20),
           high_warning := some 45, high_critical := some 55 }
  else if field = "battery_voltage" then
    some { low_warning := some 24, low_critical := some 22,
           high_warning := none, high_critical := none }
  else if field = "motor_temp" then
    some { low_warning := none, low_critical := none,
           high_warning := some 60, high_critical := some 75 }
  else if field = "electronics_temp" then
    some { low_warning := none, low_critical := none,
           high_warning := some 55, high_critical := some 65 }
  else none

/-- `AnomalyDetector.DERIVATIVE_LIMITS`. -/
def DERIVATIVE_LIMITS (field : String) : Option ℚ :=
  if field = "battery_soc" then some 2
  else if field = "battery_temp" then some 5
  else if field = "battery_voltage" then some 1
  else none

/-- Stand-in for Python `{x:.2f}` formatting inside anomaly descriptions:
any fixed rendering function of the value serves every property treated
here (descriptions are only ever compared for run-to-run equality). -/
def fmt2 (q : ℚ) : String := toString q

/-- `AnomalyDetector` state: the per-field observation history (insertion
ordered, each a bounded deque of (timestamp, value)), and the previous
frame for derivative checks. -/
structure AnomalyDetector where
  history_size : ℕ
  z_score_threshold : ℚ
  field_history : List (String × List (Val × ℚ))
  last_frame : Option CleanFrame

/-- `AnomalyDetector._detect_threshold_violations`: per configured field,
the low pair (critical before warning) and, independently, the high pair. -/
def detectThreshold (frame : CleanFrame) : List AnomalyOut :=
  frame.data.flatMap (fun kv =>
    match THRESHOLDS kv.1 with
    | none => []
    | some th =>
      match kv.2.finite? with
      | none => []
      | some q =>
        let lows :=
          match th.low_critical, th.low_warning with
          | some lc, _ =>
            if q < lc then
              [{ field := kv.1, value := q, anomaly_type := "threshold",
                 severity := "critical",
                 description := kv.1 ++ " critically low: " ++ fmt2 q,
                 timestamp := frame.timestamp }]
            else
              match th.low_warning with
              | some lw =>
                if q < lw then
                  [{ field := kv.1, value := q, anomaly_type := "threshold",
                     severity := "warning",
                     description := kv.1 ++ " low: " ++ fmt2 q,
                     timestamp := frame.timestamp }]
                else []
              | none => []
          | none, some lw =>
            if q < lw then
              [{ field := kv.1, value := q, anomaly_type := "threshold",
                 severity := "warning",
                 description := kv.1 ++ " low: " ++ fmt2 q,
                 timestamp := frame.timestamp }]
            else []
          | none, none => []
        let highs :=
          match th.high_critical, th.high_warning with
          | some hc, _ =>
            if q > hc then
              [{ field := kv.1, value := q, anomaly_type := "threshold",
                 severity := "critical",
                 description := kv.1 ++ " critically high: " ++ fmt2 q,
                 timestamp := frame.timestamp }]
            else
              match th.high_warning with
              | some hw =>
                if q > hw then
                  [{ field := kv.1, value := q, anomaly_type := "threshold",
                     severity := "warning",
                     description := kv.1 ++ " high: " ++ fmt2 q,
                     timestamp := frame.timestamp }]
                else []
              | none => []
          | none, some hw =>
            if q > hw then
              [{ field := kv.1, value := q, anomaly_type := "threshold",
                 severity := "warning",
                 description := kv.1 ++ " high: " ++ fmt2 q,
                 timestamp := frame.timestamp }]
            else []
          | none, none => []
        lows ++ highs)

/-- `AnomalyDetector._detect_derivative_anomalies`. -/
def detectDerivative (st : AnomalyDetector) (frame : CleanFrame) :
    Except PyError (List AnomalyOut) := do
  match st.last_frame with
  | none => return []
  | some last => do
    let dt ← pySubE frame.timestamp last.timestamp
    if dt ≤ 0 then
      return []
    else
      return frame.data.flatMap (fun kv =>
        match DERIVATIVE_LIMITS kv.1 with
        | none => []
        | some max_rate =>
          match kv.2.finite? with
          | none => []
          | some q =>
            match getVal last.data kv.1 with
            | none => []
            | some lastv =>
              match lastv.finite? with
              | none => []
              | some lastq =>
                let rate := |q - lastq| / dt
                if rate > max_rate then
                  [{ field := kv.1, value := q, anomaly_type := "derivative",
                     severity :=
                       if rate > max_rate * 2 then "critical" else "warning",
                     description := kv.1 ++ " changed too fast: " ++ fmt2 rate
                       ++ "/s (limit: " ++ fmt2 max_rate ++ "/s)",
                     timestamp := frame.timestamp }]
                else [])

/-- Population mean of a list of observations. -/
def obsMean (values : List ℚ) : ℚ := values.sum / values.length

/-- Population variance of a list of observations. -/
def obsVariance (values : List ℚ) : ℚ :=
  (values.map (fun v => (v - obsMean values) ^ 2)).sum / values.length

/-- The source compares `|value - mean| / sqrt(variance) > t`.  Over ℚ this
is embedded by its square: for `variance > 0` (guaranteed by the
`stddev < 1e-6` guard) and `t ≥ 0` the two tests agree, and for `t < 0` the
z-score (nonnegative) always exceeds `t`. -/
def zScoreGt (value mean variance t : ℚ) : Bool :=
  if t < 0 then true else decide ((value - mean) ^ 2 > t ^ 2 * variance)

/-- `AnomalyDetector._detect_statistical_outliers`: per numeric field with
at least 10 recorded observations and non-degenerate spread
(`stddev < 1e-6`, i.e. `variance < 1e-12`, is skipped), flag a z-score above
the configured threshold; critical beyond 1.5× the threshold. -/
def detectStatistical (st : AnomalyDetector) (frame : CleanFrame) :
    List AnomalyOut :=
  frame.data.flatMap (fun kv =>
    match kv.2.finite? with
    | none => []
    | some q =>
      match alookup st.field_history kv.1 with
      | none => []
      | some history =>
        if history.length < 10 then []
        else
          let values := history.map Prod.snd
          let mean := obsMean values
          let variance := obsVariance values
          if variance < 1 / 1000000000000 then []
          else if zScoreGt q mean variance st.z_score_threshold then
            [{ field := kv.1, value := q, anomaly_type := "z-score",
               severity :=
                 if zScoreGt q mean variance (st.z_score_threshold * 3 / 2)
                 then "critical" else "warning",
               description := kv.1 ++ " statistical outlier: value=" ++ fmt2 q
                 ++ ", mean=" ++ fmt2 mean,
               timestamp := frame.timestamp }]
          else [])

/-- `AnomalyDetector._update_history`: append (timestamp, value) for every
numeric field, creating the per-field deque on first sight (at the end of
the dict, in Python insertion order). -/
def updateHistory (n : ℕ) (fh : List (String × List (Val × ℚ)))
    (frame : CleanFrame) : List (String × List (Val × ℚ)) :=
  frame.data.foldl (fun acc kv =>
    match kv.2.finite? with
    | none => acc
    | some q =>
      if (alookup acc kv.1).isSome then
        acc.map (fun p =>
          if p.1 = kv.1 then (p.1, appendBounded n p.2 (frame.timestamp, q))
          else p)
      else
        acc ++ [(kv.1, appendBounded n [] (frame.timestamp, q))]) fh

/-- `AnomalyDetector.analyze_frame`: run the three detectors, update the
observation history, write the (possibly empty) anomaly list into the frame
metadata, and remember the labeled frame for the next derivative check. -/
def analyzeFrame (st : AnomalyDetector) (frame : CleanFrame) :
    Except PyError (CleanFrame × AnomalyDetector) := do
  let threshold_anomalies := detectThreshold frame
  let derivative_anomalies ← detectDerivative st frame
  let zscore_anomalies := detectStatistical st frame
  let anomalies := threshold_anomalies ++ derivative_anomalies ++ zscore_anomalies
  let st := { st with field_history := updateHistory st.history_size st.field_history frame }
  let labeled := { frame with metadata := { frame.metadata with anomalies := some anomalies } }
  return (labeled, { st with last_frame := some labeled })

/-! ## MissionStorage (src/meridian3/src/pipeline/storage.py)

The SQLite store is modelled as the list of rows of each table in insertion
order; the AUTOINCREMENT id of a telemetry row is its 1-based position.
`json.dumps(frame)` for the `frame_data` column is modelled injectively by
the frame value itself. -/

/-- One row of the `telemetry` table. -/
structure TelemetryRow where
  id : ℕ
  mission_id : String
  timestamp : Val
  frame_id : Val
  frame_data : CleanFrame
  quality : String
  has_anomalies : Bool
  created_at : ℚ
  deriving DecidableEq

/-- One row of the `anomalies` table. -/
structure AnomalyRow where
  telemetry_id : ℕ
  timestamp : Val
  field : String
  anomaly_type : String
  severity : String
  description : String
  deriving DecidableEq

/-- `MissionStorage` state: the two tables and the bounded frame cache. -/
structure MissionStorage where
  cache_size : ℕ
  frame_cache : List CleanFrame
  telemetry : List TelemetryRow
  anomalies : List AnomalyRow
  deriving DecidableEq

/-- A fresh storage handle over an empty database. -/
def storageInit (cache_size : ℕ) : MissionStorage :=
  { cache_size := cache_size, frame_cache := [], telemetry := [], anomalies := [] }

/-- `MissionStorage.store_frame`: insert the serialized frame as one
telemetry row (with `created_at = time.time()`, the `now` argument), one
anomalies row per attached anomaly referencing it, and append the frame to
the bounded in-memory cache. -/
def storeFrame (st : MissionStorage) (frame : CleanFrame) (mission_id : String)
    (now : ℚ) : MissionStorage :=
  let anomalies := frame.metadata.anomalies.getD []
  let telemetry_id := st.telemetry.length + 1
  let row : TelemetryRow :=
    { id := telemetry_id,
      mission_id := mission_id,
      timestamp := frame.timestamp,
      frame_id := frame.frame_id,
      frame_data := frame,
      quality := frame.metadata.quality,
      has_anomalies := decide (anomalies ≠ []),
      created_at := now }
  let anomalyRows : List AnomalyRow := anomalies.map (fun a =>
    { telemetry_id := telemetry_id,
      timestamp := frame.timestamp,
      field := a.field,
      anomaly_type := a.anomaly_type,
      severity := a.severity,
      description := a.description })
  { st with
    telemetry := st.telemetry ++ [row],
    anomalies := st.anomalies ++ anomalyRows,
    frame_cache := appendBounded st.cache_size st.frame_cache frame }

/-- Numeric sort key for the `ORDER BY timestamp DESC` fallback; pipeline
timestamps are numeric REALs (non-numeric ones never reach a stored row on
the paths treated here). -/
def tsKey (v : Val) : ℚ := v.finite?.getD 0

/-- `MissionStorage.get_latest`: serve the newest `n` frames from the cache
when it holds at least `n` entries — with no mission filter — else fall
back to a mission-filtered query ordered by timestamp descending. -/
def getLatest (st : MissionStorage) (n : ℕ) (mission_id : String) :
    List CleanFrame :=
  if n ≤ st.frame_cache.length then
    (takeLast n st.frame_cache).reverse
  else
    (((st.telemetry.filter (fun r => r.mission_id = mission_id)).mergeSort
        (fun a b => tsKey b.timestamp ≤ tsKey a.timestamp)).take n).map
      (fun r => r.frame_data)

/-! ## The five-stage pipeline driver (examples/pipeline_demo.py)

encode → corrupt → clean → (skip on `None`) → analyze → store.
`plans i` records the random draws of the i-th `corrupt_packet` call;
`clock i = (tEnc, tStore)` records the `time.time()` values that can reach
persisted state in the i-th iteration (packet send time and row
`created_at`). -/

structure PipeState where
  pz : Packetizer
  cl : Cleaner
  det : AnomalyDetector
  store : MissionStorage

/-- One driver-loop iteration. -/
def pipelineStep (mission : String) (st : PipeState) (frame : Telem)
    (plan : CorruptPlan) (tEnc tStore : ℚ) : Except PyError PipeState := do
  let (packet, pz) ← encodeFrame st.pz frame tEnc
  let corrupted := corruptPacket plan packet
  let (cleaned, cl) ← cleanPacket st.cl corrupted
  match cleaned with
  | none => return { st with pz := pz, cl := cl }
  | some clean_frame => do
    let (labeled, det) ← analyzeFrame st.det clean_frame
    let store := storeFrame st.store labeled mission tStore
    return { pz := pz, cl := cl, det := det, store := store }

/-- The driver loop over a frame sequence, from iteration index `i`. -/
def runPipelineAux (mission : String) (plans : ℕ → CorruptPlan)
    (clock : ℕ → ℚ × ℚ) : List Telem → ℕ → PipeState → Except PyError PipeState
  | [], _, st => .ok st
  | frame :: rest, i, st => do
    let st ← pipelineStep mission st frame (plans i) (clock i).1 (clock i).2
    runPipelineAux mission plans clock rest (i + 1) st

/-- A complete pipeline run from freshly constructed stages (default
configuration sizes of the demo driver are irrelevant to every property
below; they are parameters). -/
def runPipeline (mission : String) (frames : List Telem)
    (plans : ℕ → CorruptPlan) (clock : ℕ → ℚ × ℚ)
    (history_size det_history_size cache_size : ℕ) (z_thr : ℚ) :
    Except PyError PipeState :=
  runPipelineAux mission plans clock frames 0
    { pz := packetizerInit "raw",
      cl := { history_size := history_size, frame_history := [] },
      det := { history_size := det_history_size, z_score_threshold := z_thr,
               field_history := [], last_frame := none },
      store := storageInit cache_size }

/-! ## Support definitions for the stated properties -/

/-- The science-window flag as `_calculate_priority` reads it:
`frame.get('env_info', {}).get('is_science_window', False)` under Python
truthiness; a non-dict `env_info` raises. -/
def scienceFlag (frame : Telem) : Except PyError Bool :=
  match getVal frame "env_info" with
  | none => .ok false
  | some (.dict entries) =>
    .ok ((entries.get "is_science_window").getD (.bool false)).truthy
  | some _ => .error .typeError

/-- A frame is priority-well-formed when the fields `_calculate_priority`
compares hold finite floats where present and `env_info`, if present, is a
dict — exactly the shape every simulator frame has. -/
def wellFormedFrame (frame : Telem) : Bool :=
  (match getVal frame "battery_soc" with
   | none => true | some (.num _) => true | some _ => false) &&
  (match getVal frame "battery_temp" with
   | none => true | some (.num _) => true | some _ => false) &&
  (match getVal frame "velocity" with
   | none => true | some (.num _) => true | some _ => false) &&
  (match getVal frame "env_info" with
   | none => true | some (.dict _) => true | some _ => false)

/-- The priority value the code actually computes, in closed form: the
battery-temperature rule overwrites (rather than joins with) the
state-of-charge rules, and the science-window rule joins by max. -/
def priorityClosedForm (soc temp : ℚ) (sci : Bool) : ℤ :=
  if temp < -20 ∨ temp > 60 then 9
  else if soc < 20 then 10
  else if soc < 40 then 8
  else if sci then 6 else 5

/-- The frame of the priority counterexample: state of charge 10 (below
20) and battery temperature 70 (above 60). -/
def cexPriorityFrame : Telem :=
  [("battery_soc", .num 10), ("battery_temp", .num 70)]

/-- A well-formed frame with a zero-valued payload field, used by the
digest counterexamples. -/
def zeroFrame : Telem :=
  [("timestamp", .num 0), ("frame_id", .num 1), ("x", .num 0)]

/-- A corruption plan that keeps the packet, adds no jitter, and
scale-distorts exactly the field `x` (multiplying its value by 10):
on a zero value this changes nothing. -/
def zeroScalePlan : CorruptPlan :=
  { lost := false, jitter := 0,
    fieldMode := fun k =>
      if k = "x" then some (.distort (.scale 2)) else none }

/-- A plan under which the channel passes the packet through untouched. -/
def idPlan : CorruptPlan :=
  { lost := false, jitter := 0, fieldMode := fun _ => none }

/-- A minimal cleaned frame for seeding cleaner histories in concrete
scenarios. -/
def histFrame (ts soc : ℚ) : CleanFrame :=
  { timestamp := .num ts,
    frame_id := .num 1,
    data := [("battery_soc", .num soc)],
    metadata :=
      { quality := "high", repairs := [], warnings := [],
        checksum_valid := true, source := none, anomalies := none } }

/-- A cleaner state whose history holds exactly the two frames
`histFrame 1 70` and `histFrame 2 72`. -/
def cexCleaner : Cleaner :=
  { history_size := 10, frame_history := [histFrame 1 70, histFrame 2 72] }

/-- Erase the only wall-clock column: a telemetry row with `created_at`
normalised to 0. -/
def stripRow (r : TelemetryRow) : TelemetryRow :=
  { r with created_at := 0 }

/-- A storage state with every `created_at` erased: two storages equal
under `stripStore` agree on every other column of every telemetry row, on
the whole anomalies table, and on the cache. -/
def stripStore (s : MissionStorage) : MissionStorage :=
  { s with telemetry := s.telemetry.map stripRow }

/-- A pipeline state with every `created_at` erased; two states equal under
`stripState` agree on every persisted column of both tables except
`created_at`, on the caches and on every stage state. -/
def stripState (s : PipeState) : PipeState :=
  { s with store := stripStore s.store }

/-- Replace the transmission time of a packet footer (the only component
of a packet that depends on the wall clock). -/
def setTT (p : Packet) (t : ℚ) : Packet :=
  { p with footer := { p.footer with transmission_time := t } }

/-- The end-to-end demo frame `{timestamp: 0, soc: 75, temp: 20}` of the
determinism counterexample. -/
def demoFrame : Telem :=
  [("timestamp", .num 0), ("frame_id", .num 1),
   ("battery_soc", .num 75), ("battery_temp", .num 20)]

/-- An observation history for the z-score witness: ten observations of
field `x` with mean 1 and population variance 1. -/
def zHistory : List (Val × ℚ) :=
  [(.num 0, 0), (.num 1, 0), (.num 2, 0), (.num 3, 0), (.num 4, 0),
   (.num 5, 2), (.num 6, 2), (.num 7, 2), (.num 8, 2), (.num 9, 2)]

/-- A detector state holding `zHistory` for field `x` and no previous
frame. -/
def zDetector : AnomalyDetector :=
  { history_size := 50, z_score_threshold := 3,
    field_history := [("x", zHistory)], last_frame := none }

/-- A frame whose `x` value 10 lies nine population standard deviations
from the mean of `zHistory`. -/
def zFrame : CleanFrame :=
  { timestamp := .num 10, frame_id := .num 10,
    data := [("x", .num 10)],
    metadata :=
      { quality := "high", repairs := [], warnings := [],
        checksum_valid := true, source := none, anomalies := none } }


/-- A syntactically trivial packet, used only as the unreachable fallback
when destructuring results that are proved `ok`/`some` in the concrete
scenarios below. -/
def fallbackHeader : Header :=
  { packet_id := 0, timestamp := .num 0, frame_id := .num 0,
    encoding := "raw", priority := 0, packet_size := 0 }

/-- Companion payload of `fallbackHeader`. -/
def fallbackPayload : Payload :=
  { telemetry := [], compression_note := none }

/-- See `fallbackHeader`. -/
def fallbackPacket : Packet :=
  { header := fallbackHeader, payload := fallbackPayload,
    footer := { checksum := (fallbackHeader, fallbackPayload),
                transmission_time := 0, corruption_detected := none,
                corrupted_fields := none } }

/-- The concrete encoded packet of `zeroFrame`. -/
def zeroPacket : Packet :=
  match encodeFrame (packetizerInit "raw") zeroFrame 0 with
  | .ok pr => pr.1
  | .error _ => fallbackPacket

/-- A plan that removes exactly the field `x`. -/
def removePlan : CorruptPlan :=
  { lost := false, jitter := 0,
    fieldMode := fun k => if k = "x" then some .remove else none }

/-- `zeroPacket` after the zero-value scale distortion of `zeroScalePlan`:
flagged corrupted, payload unchanged. -/
def zeroPacketScaled : Packet :=
  (corruptPacket zeroScalePlan zeroPacket).getD fallbackPacket

/-- `zeroPacket` with the field `x` removed by the channel. -/
def zeroPacketRemoved : Packet :=
  (corruptPacket removePlan zeroPacket).getD fallbackPacket


/-- A fresh cleaner with the default history size. -/
def emptyCleaner : Cleaner := { history_size := 10, frame_history := [] }

/-- The result of cleaning the flagged-but-unchanged packet
`zeroPacketScaled` from a fresh cleaner. -/
def cleanZeroRun : Except PyError (Option CleanFrame × Cleaner) :=
  cleanPacket emptyCleaner (some zeroPacketScaled)

/-- The CleanFrame produced by `cleanZeroRun` (fallback unreachable). -/
def cleanedZeroFrame : CleanFrame :=
  match cleanZeroRun with
  | .ok (some cf, _) => cf
  | _ => histFrame 0 0

/-- The cleaner state after `cleanZeroRun` (fallback unreachable). -/
def cleanedZeroState : Cleaner :=
  match cleanZeroRun with
  | .ok (_, st) => st
  | _ => emptyCleaner


/-- The result of cleaning a lost (absent) unit from `cexCleaner`. -/
def lostRun : Except PyError (Option CleanFrame × Cleaner) :=
  cleanPacket cexCleaner none

/-- The interpolated frame `lostRun` synthesises (fallback unreachable). -/
def lostFrame : CleanFrame :=
  match lostRun with
  | .ok (some cf, _) => cf
  | _ => histFrame 0 0


/-- The result of analysing `zFrame` with `zDetector`. -/
def zRun : Except PyError (CleanFrame × AnomalyDetector) :=
  analyzeFrame zDetector zFrame

/-- The labeled frame of `zRun` (fallback unreachable). -/
def zOut : CleanFrame :=
  match zRun with
  | .ok pr => pr.1
  | _ => zFrame

/-- The detector state after `zRun` (fallback unreachable). -/
def zState : AnomalyDetector :=
  match zRun with
  | .ok pr => pr.2
  | _ => zDetector

/-- The first anomaly `zRun` attaches (fallback unreachable). -/
def zAnom : AnomalyOut :=
  (zOut.metadata.anomalies.getD []).headD
    { field := "", value := 0, anomaly_type := "", severity := "",
      description := "", timestamp := .num 0 }


/-- A sequence of `store_frame` calls — each entry is (frame, mission_id,
`time.time()` value) — applied to a fresh storage. -/
def storeAll (cs : ℕ) (entries : List (CleanFrame × String × ℚ)) :
    MissionStorage :=
  entries.foldl (fun s e => storeFrame s e.1 e.2.1 e.2.2) (storageInit cs)

/-! ## Theorems -/

/-- Reading an optional numeric field with a numeric default. -/
theorem map_num_getD (o : Option ℚ) (d : ℚ) :
    (Option.map Val.num o).getD (Val.num d) = Val.num (o.getD d) := by
  cases o <;> rfl

/-- C2 counterexample: the frame with state of charge 10 (below 20) and
battery temperature 70 (above 60) is assigned priority 9, not the 10 the
claim requires for every frame with state of charge below 20; the
temperature rule overwrites the previously assigned 10. -/
theorem C2_counterexample :
    getVal cexPriorityFrame "battery_soc" = some (Val.num 10) ∧
    (10 : ℚ) < 20 ∧
    calcPriority cexPriorityFrame = Except.ok 9 := by
  refine ⟨rfl, by norm_num, ?_⟩
  unfold calcPriority
  simp +decide [pyLtQ, pyGtQ, cexPriorityFrame, getVal]

/-- Closed-form evaluation of `_calculate_priority` on frames whose
designated fields are numeric where present. -/
theorem calcPriority_eval (frame : Telem) (soc temp vel : Option ℚ) (sci : Bool)
    (hsoc : getVal frame "battery_soc" = Option.map Val.num soc)
    (htemp : getVal frame "battery_temp" = Option.map Val.num temp)
    (hvel : getVal frame "velocity" = Option.map Val.num vel)
    (hsci : scienceFlag frame = .ok sci) :
    calcPriority frame
      = .ok (priorityClosedForm (soc.getD 100) (temp.getD 0) sci) := by
  unfold calcPriority priorityClosedForm
  rw [hsoc, htemp, hvel, map_num_getD, map_num_getD, map_num_getD]
  unfold scienceFlag at hsci
  rcases henv : getVal frame "env_info" with _ | v
  all_goals rw [henv] at hsci
  · simp only at hsci
    injection hsci with hsci
    subst hsci
    by_cases h1 : soc.getD 100 < 20 <;>
      by_cases h2 : soc.getD 100 < 40 <;>
      by_cases h3 : temp.getD 0 < -20 <;>
      by_cases h4 : temp.getD 0 > 60 <;>
      simp +decide [pyLtQ, pyGtQ, h1, h2, h3, h4] <;>
      split <;> simp_all +decide
  · cases v <;> simp only at hsci <;> try exact Except.noConfusion hsci
    injection hsci with hsci
    subst hsci
    by_cases h1 : soc.getD 100 < 20 <;>
      by_cases h2 : soc.getD 100 < 40 <;>
      by_cases h3 : temp.getD 0 < -20 <;>
      by_cases h4 : temp.getD 0 > 60 <;>
      simp +decide [pyLtQ, pyGtQ, h1, h2, h3, h4] <;>
      (try split) <;> simp_all +decide <;>
      (try split) <;> simp_all +decide

/-- C2 (amended): the priority equals the maximum over the applicable
rules except that the battery-temperature rule overwrites rather than
joins: when battery_temp is below -20 or above 60 the priority is set to 9
regardless of the state-of-charge rules (the science-window join with 6
and the velocity join with 5 cannot raise it further); otherwise priority
is 10 when state-of-charge is below 20, 8 when below 40, and the maximum
of the base 5 with 6 when the science window is set.  In particular a
frame with state-of-charge below 20 gets priority 10 only when the battery
temperature lies inside [-20, 60]. -/
theorem C2_theorem (frame : Telem) (soc temp vel : Option ℚ) (sci : Bool)
    (hsoc : getVal frame "battery_soc" = Option.map Val.num soc)
    (htemp : getVal frame "battery_temp" = Option.map Val.num temp)
    (hvel : getVal frame "velocity" = Option.map Val.num vel)
    (hsci : scienceFlag frame = .ok sci) :
    calcPriority frame
      = .ok (priorityClosedForm (soc.getD 100) (temp.getD 0) sci) :=
  calcPriority_eval frame soc temp vel sci hsoc htemp hvel hsci

/-- C2 witness: the amended closed form instantiated at a concrete frame
with state of charge 30, battery temperature 70 and an open science
window; the assigned priority is 9. -/
theorem C2_witness :
    calcPriority
        [("battery_soc", Val.num 30), ("battery_temp", Val.num 70),
         ("velocity", Val.num 1),
         ("env_info",
          Val.dict (ValDict.cons "is_science_window" (Val.bool true) ValDict.nil))]
      = .ok (priorityClosedForm ((some (30 : ℚ)).getD 100)
          ((some (70 : ℚ)).getD 0) true) :=
  C2_theorem _ (some 30) (some 70) (some 1) true (by decide) (by decide)
    (by decide) (by decide)

/-- The designated fields of a priority-well-formed frame, in the shape
`calcPriority_eval` consumes. -/
theorem wf_fields (frame : Telem) (hwf : wellFormedFrame frame = true) :
    (∃ soc : Option ℚ, getVal frame "battery_soc" = Option.map Val.num soc) ∧
    (∃ temp : Option ℚ, getVal frame "battery_temp" = Option.map Val.num temp) ∧
    (∃ vel : Option ℚ, getVal frame "velocity" = Option.map Val.num vel) ∧
    (∃ sci, scienceFlag frame = .ok sci) := by
  unfold wellFormedFrame at hwf
  simp only [Bool.and_eq_true] at hwf
  obtain ⟨⟨⟨h1, h2⟩, h3⟩, h4⟩ := hwf
  refine ⟨?_, ?_, ?_, ?_⟩
  · rcases hs : getVal frame "battery_soc" with _ | v
    · exact ⟨none, rfl⟩
    · rw [hs] at h1
      cases v <;> simp at h1
      exact ⟨some _, rfl⟩
  · rcases hs : getVal frame "battery_temp" with _ | v
    · exact ⟨none, rfl⟩
    · rw [hs] at h2
      cases v <;> simp at h2
      exact ⟨some _, rfl⟩
  · rcases hs : getVal frame "velocity" with _ | v
    · exact ⟨none, rfl⟩
    · rw [hs] at h3
      cases v <;> simp at h3
      exact ⟨some _, rfl⟩
  · rcases hs : getVal frame "env_info" with _ | v
    · exact ⟨false, by simp [scienceFlag, hs]⟩
    · rw [hs] at h4
      cases v <;> simp at h4
      rename_i entries
      exact ⟨((entries.get "is_science_window").getD (Val.bool false)).truthy,
        by simp [scienceFlag, hs]⟩

/-- C8 (amended): constructing a Packetizer never fails whatever the mode;
the two recognised modes encode every priority-well-formed frame without
error; an unrecognised mode makes `encode_frame` raise a `ValueError`
(there is no `ConfigurationError` anywhere, and nothing is raised at
setup). -/
theorem C8_theorem (frame : Telem) (now : ℚ)
    (hwf : wellFormedFrame frame = true) :
    (∃ out, encodeFrame (packetizerInit "raw") frame now = .ok out) ∧
    (∃ out, encodeFrame (packetizerInit "compressed") frame now = .ok out) ∧
    (∀ e : String, e ≠ "raw" → e ≠ "compressed" →
      encodeFrame (packetizerInit e) frame now
        = .error (.valueError ("Unknown encoding: " ++ e))) := by
  obtain ⟨⟨soc, hsoc⟩, ⟨temp, htemp⟩, ⟨vel, hvel⟩, ⟨sci, hsci⟩⟩ :=
    wf_fields frame hwf
  have hp := calcPriority_eval frame soc temp vel sci hsoc htemp hvel hsci
  refine ⟨?_, ?_, ?_⟩
  · rcases hres : encodeFrame (packetizerInit "raw") frame now with err | out
    · exfalso
      simp [encodeFrame, hp, encodePayload, packetizerInit, bind, Except.bind, pure, Except.pure] at hres
    · exact ⟨out, rfl⟩
  · rcases hres : encodeFrame (packetizerInit "compressed") frame now with err | out
    · exfalso
      simp [encodeFrame, hp, encodePayload, packetizerInit, bind, Except.bind, pure, Except.pure] at hres
    · exact ⟨out, rfl⟩
  · intro e he1 he2
    simp [encodeFrame, hp, encodePayload, packetizerInit, he1, he2, bind, Except.bind]

/-- C8 counterexample: constructing a Packetizer with the unrecognised
mode "yaml" completes normally (the constructor body performs no
validation and cannot raise), and the failure instead surfaces when a
frame is encoded, as a `ValueError` from `_encode_payload` — there is no
`ConfigurationError` and nothing fails at setup. -/
theorem C8_counterexample :
    packetizerInit "yaml" = { encoding := "yaml", packet_counter := 0 } ∧
    encodeFrame (packetizerInit "yaml") zeroFrame 0
      = .error (.valueError "Unknown encoding: yaml") := by
  refine ⟨rfl, ?_⟩
  simp +decide [encodeFrame, calcPriority, encodePayload, packetizerInit,
    pyLtQ, pyGtQ, zeroFrame, getVal, bind, Except.bind]

/-- C8 witness: the amended statement instantiated at the concrete
well-formed frame `zeroFrame`. -/
theorem C8_witness :
    (∃ out, encodeFrame (packetizerInit "raw") zeroFrame 0 = .ok out) ∧
    (∃ out, encodeFrame (packetizerInit "compressed") zeroFrame 0 = .ok out) ∧
    (∀ e : String, e ≠ "raw" → e ≠ "compressed" →
      encodeFrame (packetizerInit e) zeroFrame 0
        = .error (.valueError ("Unknown encoding: " ++ e))) :=
  C8_theorem zeroFrame 0 (by decide)

/-- C4 counterexample: the channel corrupts the zero-valued field `x` of
an encoded packet (scale distortion, `0 * 10 = 0`), records it in the
corrupted-field list and sets the corruption flag, yet digest verification
on the resulting packet still returns true, because the payload byte
pattern did not actually change. -/
theorem C4_counterexample :
    ((encodeFrame (packetizerInit "raw") zeroFrame 0).map (fun pr =>
      (corruptPacket zeroScalePlan pr.1).map (fun p₂ =>
        (p₂.footer.corrupted_fields, p₂.footer.corruption_detected,
         verifyChecksum p₂))))
      = .ok (some (some ["x"], some true, true)) := by
  simp +decide [encodeFrame, calcPriority, encodePayload, packetizerInit,
    pyLtQ, pyGtQ, zeroFrame, getVal, bind, Except.bind, corruptPacket,
    zeroScalePlan, distortValue, corruptField, scaleFactors, verifyChecksum,
    calcChecksum, Val.finite?, Except.map, pure, Except.pure]

/-- C4 (amended): digest verification succeeds on every packet the
Encoder produces; and for a packet that survives the channel, verification
succeeds afterwards exactly when the payload is unchanged — so any
corruption that actually alters a payload value (removal or type error of
a numeric field, any distortion that changes the number) makes
verification fail, while a corruption that happens to reproduce the same
value (such as scale-distorting 0) leaves verification passing.  Jitter
touches only the footer and never affects verification. -/
theorem C4_theorem :
    (∀ pz frame now out, encodeFrame pz frame now = .ok out →
        verifyChecksum out.1 = true) ∧
    (∀ plan pkt pkt₂, corruptPacket plan pkt = some pkt₂ →
        verifyChecksum pkt = true →
        (verifyChecksum pkt₂ = true ↔ pkt₂.payload = pkt.payload)) := by
  constructor
  · intro pz frame now out hok
    unfold encodeFrame at hok
    rcases hp : calcPriority frame with e | p <;> rw [hp] at hok <;>
      simp [bind, Except.bind] at hok
    rcases hpl : encodePayload pz.encoding frame with e | pl <;> rw [hpl] at hok <;>
      simp [bind, Except.bind, pure, Except.pure] at hok
    rw [← hok]
    simp [verifyChecksum, calcChecksum]
  · intro plan pkt pkt₂ hc hv
    unfold corruptPacket at hc
    by_cases hl : plan.lost
    · simp [hl] at hc
    · simp only [hl, if_false, Option.some.injEq, Bool.false_eq_true,
        if_neg] at hc
      subst hc
      simp only [verifyChecksum, calcChecksum, decide_eq_true_eq] at hv ⊢
      constructor
      · intro h
        have := h.trans hv.symm
        exact (Prod.mk.injEq _ _ _ _ ▸ this).2.symm ▸ rfl
      · intro h
        simp only [h]
        exact hv

/-- C4 witness: the amended statement at the concrete zero-valued packet:
its digest verifies after encoding; after the channel removes field `x`
the equivalence instantiates, and since the payload did change,
verification fails. -/
theorem C4_witness :
    verifyChecksum zeroPacket = true ∧
    corruptPacket removePlan zeroPacket = some zeroPacketRemoved ∧
    (verifyChecksum zeroPacketRemoved = true ↔
      zeroPacketRemoved.payload = zeroPacket.payload) := by
  have he : encodeFrame (packetizerInit "raw") zeroFrame 0
      = .ok (zeroPacket, { encoding := "raw", packet_counter := 1 }) := by
    simp +decide [encodeFrame, calcPriority, encodePayload, packetizerInit,
      pyLtQ, pyGtQ, zeroFrame, getVal, bind, Except.bind, pure, Except.pure,
      zeroPacket]
  have hcor : corruptPacket removePlan zeroPacket = some zeroPacketRemoved := by
    simp +decide [zeroPacketRemoved, corruptPacket, removePlan, zeroPacket,
      encodeFrame, calcPriority, encodePayload, packetizerInit, pyLtQ, pyGtQ,
      zeroFrame, getVal, bind, Except.bind, pure, Except.pure, corruptField]
  exact ⟨C4_theorem.1 _ _ _ _ he, hcor,
    C4_theorem.2 removePlan zeroPacket zeroPacketRemoved hcor
      (C4_theorem.1 _ _ _ _ he)⟩

/-- C7 counterexample: on the genuine pipeline path, the zero-value scale
corruption yields a packet whose digest still verifies (the payload is
unchanged), yet `clean_packet` reports `checksum_valid = false`, because
the Cleaner does not recompute the digest but negates the
`corruption_detected` flag the channel set. -/
theorem C7_counterexample :
    verifyChecksum zeroPacketScaled = true ∧
    ((cleanPacket { history_size := 10, frame_history := [] }
        (some zeroPacketScaled)).map (fun r =>
          r.1.map (fun cf => cf.metadata.checksum_valid)))
      = .ok (some false) := by
  constructor
  · simp +decide [zeroPacketScaled, corruptPacket, zeroScalePlan, zeroPacket,
      encodeFrame, calcPriority, encodePayload, packetizerInit, pyLtQ, pyGtQ,
      zeroFrame, getVal, bind, Except.bind, pure, Except.pure, corruptField,
      distortValue, scaleFactors, Val.finite?, verifyChecksum, calcChecksum]
  · simp +decide [zeroPacketScaled, corruptPacket, zeroScalePlan, zeroPacket,
      encodeFrame, calcPriority, encodePayload, packetizerInit, pyLtQ, pyGtQ,
      zeroFrame, getVal, bind, Except.bind, pure, Except.pure, corruptField,
      distortValue, scaleFactors, Val.finite?, cleanPacket, cleanField,
      cleanFieldRate, interpolateField, VALID_RANGES, RATE_LIMITS,
      defaultValue, Val.isNumeric, appendBounded, takeLast, Except.map,
      List.mapM]

/-- C7 (amended): for every present unit, the `checksum_valid` metadata of
the CleanFrame that `clean_packet` returns equals the negation of the
`corruption_detected` footer flag (absent read as false) — a flag check,
not a digest recomputation, which can disagree with actual digest
verification. -/
theorem C7_theorem (st : Cleaner) (pkt : Packet) (cf : CleanFrame)
    (st₂ : Cleaner) (hok : cleanPacket st (some pkt) = .ok (some cf, st₂)) :
    cf.metadata.checksum_valid
      = ! (pkt.footer.corruption_detected.getD false) := by
  unfold cleanPacket at hok
  simp only [bind, Except.bind] at hok
  split at hok
  · simp at hok
  · simp only [pure, Except.pure, Except.ok.injEq, Prod.mk.injEq,
      Option.some.injEq] at hok
    rw [← hok.1]

/-- C7 witness: the flag-based equality instantiated on the concrete
cleaning of `zeroPacketScaled`. -/
theorem C7_witness :
    cleanedZeroFrame.metadata.checksum_valid
      = ! (zeroPacketScaled.footer.corruption_detected.getD false) := by
  have hok : cleanPacket emptyCleaner (some zeroPacketScaled)
      = .ok (some cleanedZeroFrame, cleanedZeroState) := by
    simp +decide [cleanedZeroFrame, cleanedZeroState, cleanZeroRun,
      emptyCleaner, zeroPacketScaled, corruptPacket, zeroScalePlan,
      zeroPacket, encodeFrame, calcPriority, encodePayload, packetizerInit,
      pyLtQ, pyGtQ, zeroFrame, getVal, bind, Except.bind, pure, Except.pure,
      corruptField, distortValue, scaleFactors, Val.finite?, cleanPacket,
      cleanField, cleanFieldRate, interpolateField, VALID_RANGES, RATE_LIMITS,
      defaultValue, Val.isNumeric, appendBounded, takeLast, List.mapM]
  exact C7_theorem emptyCleaner zeroPacketScaled cleanedZeroFrame
    cleanedZeroState hok

/-- C3: every CleanFrame produced from a present packet satisfies the
quality/repair-count consistency invariant: with 0 repairs the quality is
high or degraded according to `checksum_valid`; with 1 to 3 repairs it is
medium; with more than 3 it is low; hence it is never high with an invalid
digest, never high or degraded with a non-empty repair list, and exactly
low beyond 3 repairs. -/
theorem C3_theorem (st : Cleaner) (pkt : Packet) (cf : CleanFrame)
    (st₂ : Cleaner) (hok : cleanPacket st (some pkt) = .ok (some cf, st₂)) :
    (cf.metadata.repairs.length = 0 →
      cf.metadata.quality
        = (if cf.metadata.checksum_valid then "high" else "degraded")) ∧
    (1 ≤ cf.metadata.repairs.length → cf.metadata.repairs.length ≤ 3 →
      cf.metadata.quality = "medium") ∧
    (3 < cf.metadata.repairs.length → cf.metadata.quality = "low") ∧
    (cf.metadata.checksum_valid = false → cf.metadata.quality ≠ "high") ∧
    (cf.metadata.repairs ≠ [] →
      cf.metadata.quality ≠ "high" ∧ cf.metadata.quality ≠ "degraded") := by
  unfold cleanPacket at hok
  simp only [bind, Except.bind] at hok
  split at hok
  · simp at hok
  · simp only [pure, Except.pure, Except.ok.injEq, Prod.mk.injEq,
      Option.some.injEq] at hok
    obtain ⟨hcf, -⟩ := hok
    subst hcf
    refine ⟨?_, ?_, ?_, ?_, ?_⟩
    · intro h
      dsimp only at h ⊢
      rw [if_neg (by omega), if_neg (by omega)]
    · intro h1 h2
      dsimp only at h1 h2 ⊢
      rw [if_neg (by omega), if_pos (by omega)]
    · intro h
      dsimp only at h ⊢
      rw [if_pos (by omega)]
    · intro h
      dsimp only at h ⊢
      split_ifs <;> simp_all +decide
    · intro h
      dsimp only at h ⊢
      have hl : 0 < (List.filterMap _ _).length := List.length_pos.mpr h
      split_ifs <;> first | (exact absurd hl (by omega)) | simp +decide

/-- Appending to a non-degenerate bounded deque makes the new element its
newest entry. -/
theorem getLast?_appendBounded (n : ℕ) (hn : 0 < n) (l : List α) (x : α) :
    (appendBounded n l x).getLast? = some x := by
  unfold appendBounded takeLast
  rw [List.drop_append_of_le_length (by simp; omega), List.getLast?_concat]

/-- C5 counterexample: with two frames in history, cleaning a lost unit
returns an interpolated frame but leaves the history untouched — the
returned frame is not the newest history entry (the newest entry is still
the previously cleaned frame). -/
theorem C5_counterexample :
    cleanPacket cexCleaner none = .ok (some lostFrame, cexCleaner) ∧
    cexCleaner.frame_history.getLast? = some (histFrame 2 72) ∧
    lostFrame ≠ histFrame 2 72 := by
  refine ⟨?_, ?_, ?_⟩
  · simp +decide [cleanPacket, interpolateLostFrame, lostFrame, lostRun,
      cexCleaner, histFrame, valNumE, Val.finite?, getVal, bind, Except.bind,
      pure, Except.pure]
  · simp +decide [cexCleaner, histFrame]
  · simp +decide [lostFrame, lostRun, cleanPacket, interpolateLostFrame,
      cexCleaner, histFrame, valNumE, Val.finite?, getVal, bind, Except.bind,
      pure, Except.pure]

/-- C5 (amended): a CleanFrame produced from a present packet is appended
to the bounded history before being returned (it is the newest entry,
whenever the history bound is positive); a frame interpolated for a lost
unit is returned with the cleaner state — including the history —
completely unchanged. -/
theorem C5_theorem :
    (∀ st pkt cf st₂, 0 < st.history_size →
      cleanPacket st (some pkt) = .ok (some cf, st₂) →
      st₂.frame_history.getLast? = some cf) ∧
    (∀ st r, cleanPacket st none = .ok r → r.2 = st) := by
  constructor
  · intro st pkt cf st₂ hn hok
    unfold cleanPacket at hok
    simp only [bind, Except.bind] at hok
    split at hok
    · simp at hok
    · simp only [pure, Except.pure, Except.ok.injEq, Prod.mk.injEq,
        Option.some.injEq] at hok
      obtain ⟨hcf, hst⟩ := hok
      rw [← hst, ← hcf]
      exact getLast?_appendBounded _ hn _ _
  · intro st r hok
    unfold cleanPacket at hok
    by_cases h2 : 2 ≤ st.frame_history.length
    · rw [if_pos h2] at hok
      simp only [bind, Except.bind] at hok
      split at hok
      · simp at hok
      · split at hok
        · simp only [pure, Except.pure, Except.ok.injEq] at hok
          rw [← hok]
        · simp at hok
    · rw [if_neg h2] at hok
      simp only [pure, Except.pure, Except.ok.injEq] at hok
      rw [← hok]

/-- C5 witness: both parts of the amended statement at concrete inputs —
the cleaned `zeroPacketScaled` ends up as the newest history entry, and
the lost-unit interpolation from `cexCleaner` hands the state back
unchanged. -/
theorem C5_witness :
    cleanedZeroState.frame_history.getLast? = some cleanedZeroFrame ∧
    (some lostFrame, cexCleaner).2 = cexCleaner := by
  have hok : cleanPacket emptyCleaner (some zeroPacketScaled)
      = .ok (some cleanedZeroFrame, cleanedZeroState) := by
    simp +decide [cleanedZeroFrame, cleanedZeroState, cleanZeroRun,
      emptyCleaner, zeroPacketScaled, corruptPacket, zeroScalePlan,
      zeroPacket, encodeFrame, calcPriority, encodePayload, packetizerInit,
      pyLtQ, pyGtQ, zeroFrame, getVal, bind, Except.bind, pure, Except.pure,
      corruptField, distortValue, scaleFactors, Val.finite?, cleanPacket,
      cleanField, cleanFieldRate, interpolateField, VALID_RANGES, RATE_LIMITS,
      defaultValue, Val.isNumeric, appendBounded, takeLast, List.mapM]
  have hlost : cleanPacket cexCleaner none = .ok (some lostFrame, cexCleaner) := by
    simp +decide [cleanPacket, interpolateLostFrame, lostFrame, lostRun,
      cexCleaner, histFrame, valNumE, Val.finite?, getVal, bind, Except.bind,
      pure, Except.pure]
  exact ⟨C5_theorem.1 emptyCleaner zeroPacketScaled cleanedZeroFrame
      cleanedZeroState (by norm_num [emptyCleaner]) hok,
    C5_theorem.2 cexCleaner _ hlost⟩

/-- C6: the interpolation boundary.  A lost unit yields `none` exactly when
the history holds fewer than 2 frames; with at least 2 frames (the last
two carrying numeric timestamps t1 and t2) it yields a frame of quality
`interpolated` whose timestamp is `t2 + (t2 - t1)` and whose fields are
the fields of the newest history entry, each extrapolated as
`v2 + (v2 - v1)` when numeric in both of the last two entries and carried
forward from the newest entry otherwise. -/
theorem C6_theorem (st : Cleaner) :
    (st.frame_history.length < 2 → cleanPacket st none = .ok (none, st)) ∧
    (∀ pre f1 f2 t1 t2, st.frame_history = pre ++ [f1, f2] →
      f1.timestamp = .num t1 → f2.timestamp = .num t2 →
      cleanPacket st none = .ok (some
        { timestamp := .num (t2 + (t2 - t1)),
          frame_id := .num (-1),
          data := f2.data.map (fun kv =>
            match getVal f1.data kv.1 with
            | some v1 =>
              match v1.finite?, kv.2.finite? with
              | some q1, some q2 => (kv.1, Val.num (q2 + (q2 - q1)))
              | _, _ => kv
            | none => kv),
          metadata :=
            { quality := "interpolated", repairs := [],
              warnings := ["Entire frame interpolated due to packet loss"],
              checksum_valid := false,
              source := some "history_interpolation",
              anomalies := none } }, st)) := by
  constructor
  · intro h
    unfold cleanPacket
    rw [if_neg (by omega)]
    rfl
  · intro pre f1 f2 t1 t2 hh ht1 ht2
    unfold cleanPacket interpolateLostFrame
    rw [hh]
    have hrev : (pre ++ [f1, f2]).reverse = f2 :: f1 :: pre.reverse := by
      simp
    rw [hrev, if_pos (by simp)]
    simp [ht1, ht2, valNumE, Val.finite?, bind, Except.bind, pure,
      Except.pure]

/-- C6 witness: the boundary at concrete states — a fresh cleaner returns
`none` for a lost unit; `cexCleaner` (history `[histFrame 1 70,
histFrame 2 72]`) returns the concrete extrapolated frame with timestamp
2 + (2 - 1) and battery_soc 72 + (72 - 70). -/
theorem C6_witness :
    cleanPacket emptyCleaner none = .ok (none, emptyCleaner) ∧
    cleanPacket cexCleaner none = .ok (some
      { timestamp := .num (2 + (2 - 1)),
        frame_id := .num (-1),
        data := (histFrame 2 72).data.map (fun kv =>
          match getVal (histFrame 1 70).data kv.1 with
          | some v1 =>
            match v1.finite?, kv.2.finite? with
            | some q1, some q2 => (kv.1, Val.num (q2 + (q2 - q1)))
            | _, _ => kv
          | none => kv),
        metadata :=
          { quality := "interpolated", repairs := [],
            warnings := ["Entire frame interpolated due to packet loss"],
            checksum_valid := false,
            source := some "history_interpolation",
            anomalies := none } }, cexCleaner) :=
  ⟨(C6_theorem emptyCleaner).1 (by norm_num [emptyCleaner]),
   (C6_theorem cexCleaner).2 [] (histFrame 1 70) (histFrame 2 72) 1 2
     (by simp [cexCleaner]) rfl rfl⟩

/-- Every anomaly of the threshold detector carries type "threshold". -/
theorem detectThreshold_type (frame : CleanFrame) (a : AnomalyOut)
    (h : a ∈ detectThreshold frame) : a.anomaly_type = "threshold" := by
  simp only [detectThreshold, List.mem_flatMap] at h
  obtain ⟨kv, -, h⟩ := h
  rcases hth : THRESHOLDS kv.1 with _ | th <;> rw [hth] at h
  · simp at h
  rcases hfin : kv.2.finite? with _ | q <;> rw [hfin] at h
  · simp at h
  rcases List.mem_append.mp h with h | h <;> (repeat' split at h) <;> simp_all

/-- Every anomaly of the derivative detector carries type "derivative". -/
theorem detectDerivative_type (st : AnomalyDetector) (frame : CleanFrame)
    (der : List AnomalyOut) (hd : detectDerivative st frame = .ok der)
    (a : AnomalyOut) (h : a ∈ der) : a.anomaly_type = "derivative" := by
  unfold detectDerivative at hd
  split at hd
  · simp only [pure, Except.pure, Except.ok.injEq] at hd
    rw [← hd] at h
    simp at h
  rename_i x lastF hlast
  rcases hdt : pySubE frame.timestamp lastF.timestamp with e | dt <;>
    rw [hdt] at hd <;> simp [bind, Except.bind, pure, Except.pure] at hd
  split at hd <;> injection hd with hd
  · rw [← hd] at h
    simp at h
  · rw [← hd] at h
    simp only [List.mem_flatMap] at h
    obtain ⟨kv, -, h⟩ := h
    (repeat' split at h) <;> simp_all

/-- Every anomaly the statistical detector emits for a field comes with at
least 10 recorded observations of that field in the PRE-call history and a
population variance at least 1e-12 over that window. -/
theorem detectStatistical_mem (st : AnomalyDetector) (frame : CleanFrame)
    (a : AnomalyOut) (h : a ∈ detectStatistical st frame) :
    a.anomaly_type = "z-score" ∧
    ∃ hist, alookup st.field_history a.field = some hist ∧
      10 ≤ hist.length ∧
      ¬ obsVariance (hist.map Prod.snd) < 1 / 1000000000000 := by
  simp only [detectStatistical, List.mem_flatMap] at h
  obtain ⟨kv, -, h⟩ := h
  rcases hfin : kv.2.finite? with _ | q <;> rw [hfin] at h <;> dsimp only at h
  · simp at h
  rcases hl : alookup st.field_history kv.1 with _ | hist <;> rw [hl] at h <;>
    dsimp only at h
  · simp at h
  by_cases h10 : hist.length < 10
  · rw [if_pos h10] at h
    simp at h
  rw [if_neg h10] at h
  by_cases hvar : obsVariance (hist.map Prod.snd) < 1 / 1000000000000
  · rw [if_pos hvar] at h
    simp at h
  rw [if_neg hvar] at h
  split at h <;> simp at h
  subst h
  exact ⟨rfl, hist, hl, by omega, hvar⟩

/-- C9: z-score warmup.  Whatever frame is analysed, every z-score anomaly
in the output refers to a field whose per-field history already held at
least 10 (numeric) observations before the call — the current value is
recorded only after detection — and whose window variance clears the
1e-12 degenerate-spread guard (population stddev at least 1e-6).
Contrapositively: no z-score anomaly is ever emitted for a field with
fewer than 10 prior observations, regardless of the value. -/
theorem C9_theorem (st : AnomalyDetector) (frame : CleanFrame)
    (out : CleanFrame) (st₂ : AnomalyDetector)
    (hok : analyzeFrame st frame = .ok (out, st₂)) (a : AnomalyOut)
    (hmem : a ∈ out.metadata.anomalies.getD [])
    (hz : a.anomaly_type = "z-score") :
    ∃ hist, alookup st.field_history a.field = some hist ∧
      10 ≤ hist.length ∧
      ¬ obsVariance (hist.map Prod.snd) < 1 / 1000000000000 := by
  unfold analyzeFrame at hok
  rcases hd : detectDerivative st frame with e | der
  · rw [hd] at hok
    exact absurd hok (by simp [bind, Except.bind])
  rw [hd] at hok
  simp only [bind, Except.bind, pure, Except.pure, Except.ok.injEq,
    Prod.mk.injEq] at hok
  obtain ⟨hout, -⟩ := hok
  rw [← hout] at hmem
  simp only [Option.getD_some] at hmem
  rcases List.mem_append.mp hmem with hmem | hmem
  · rcases List.mem_append.mp hmem with hmem | hmem
    · rw [detectThreshold_type frame a hmem] at hz
      exact absurd hz (by decide)
    · rw [detectDerivative_type st frame der hd a hmem] at hz
      exact absurd hz (by decide)
  · exact (detectStatistical_mem st frame a hmem).2

/-- C9 witness: the warmup bound instantiated on a concrete detection — a
field with exactly ten prior observations and variance 1 emits a z-score
anomaly, and the theorem recovers that its history was long and
non-degenerate enough. -/
theorem C9_witness :
    ∃ hist, alookup zDetector.field_history zAnom.field = some hist ∧
      10 ≤ hist.length ∧
      ¬ obsVariance (hist.map Prod.snd) < 1 / 1000000000000 := by
  have hok : analyzeFrame zDetector zFrame = .ok (zOut, zState) := by
    simp +decide [zOut, zState, zRun, analyzeFrame, zDetector, zFrame,
      detectThreshold, detectDerivative, detectStatistical, updateHistory,
      THRESHOLDS, DERIVATIVE_LIMITS, alookup, zHistory, obsMean, obsVariance,
      zScoreGt, fmt2, Val.finite?, bind, Except.bind, pure, Except.pure,
      appendBounded, takeLast]
  have hmem : zAnom ∈ zOut.metadata.anomalies.getD [] := by
    simp +decide [zAnom, zOut, zRun, analyzeFrame, zDetector, zFrame,
      detectThreshold, detectDerivative, detectStatistical, updateHistory,
      THRESHOLDS, DERIVATIVE_LIMITS, alookup, zHistory, obsMean, obsVariance,
      zScoreGt, fmt2, Val.finite?, bind, Except.bind, pure, Except.pure,
      appendBounded, takeLast]
    norm_num
  have hz : zAnom.anomaly_type = "z-score" := by
    simp +decide [zAnom, zOut, zRun, analyzeFrame, zDetector, zFrame,
      detectThreshold, detectDerivative, detectStatistical, updateHistory,
      THRESHOLDS, DERIVATIVE_LIMITS, alookup, zHistory, obsMean, obsVariance,
      zScoreGt, fmt2, Val.finite?, bind, Except.bind, pure, Except.pure,
      appendBounded, takeLast]
    norm_num
  exact C9_theorem zDetector zFrame zOut zState hok zAnom hmem hz

/-- Re-bounding after an append: the bounded deque already holds only the
last `n` elements, so bounding again after appending loses nothing. -/
theorem takeLast_append_takeLast (n : ℕ) (l : List α) (x : α) :
    takeLast n (takeLast n l ++ [x]) = takeLast n (l ++ [x]) := by
  unfold takeLast
  by_cases h : l.length ≤ n
  · rw [Nat.sub_eq_zero_of_le h, List.drop_zero]
  · push_neg at h
    have hlen : (l.drop (l.length - n)).length = n := by
      rw [List.length_drop]; omega
    by_cases hn0 : n = 0
    · subst hn0
      rw [List.drop_eq_nil_of_le (by simp), List.drop_eq_nil_of_le (by simp)]
    · rw [List.length_append, List.length_append, hlen,
        List.drop_append_of_le_length (by rw [hlen]; simp; omega),
        List.drop_append_of_le_length (by simp; omega), List.drop_drop]
      congr 2
      omega

/-- Taking the last `n` of the last `cs` is taking the last `n`, when
`n ≤ cs`. -/
theorem takeLast_takeLast (n cs : ℕ) (hn : n ≤ cs) (l : List α) :
    takeLast n (takeLast cs l) = takeLast n l := by
  unfold takeLast
  rw [List.drop_drop]
  congr 1
  rw [List.length_drop]
  omega

/-- The in-memory cache after a run of stores holds exactly the last
`cache_size` frames stored, whatever their missions. -/
theorem foldl_store_cache (cs : ℕ) (st : MissionStorage)
    (hcs : st.cache_size = cs) (flist : List CleanFrame)
    (hc : st.frame_cache = takeLast cs flist)
    (entries : List (CleanFrame × String × ℚ)) :
    (entries.foldl (fun s e => storeFrame s e.1 e.2.1 e.2.2) st).frame_cache
      = takeLast cs (flist ++ entries.map Prod.fst) ∧
    (entries.foldl (fun s e => storeFrame s e.1 e.2.1 e.2.2) st).cache_size
      = cs := by
  induction entries generalizing st flist with
  | nil => simp [hc, hcs]
  | cons e rest ih =>
    simp only [List.foldl_cons, List.map_cons]
    have hst : (storeFrame st e.1 e.2.1 e.2.2).frame_cache
        = takeLast cs (flist ++ [e.1]) := by
      simp only [storeFrame, hc, hcs, appendBounded]
      exact takeLast_append_takeLast cs flist e.1
    have h := ih (storeFrame st e.1 e.2.1 e.2.2) (by simp [storeFrame, hcs])
      (flist ++ [e.1]) hst
    simpa using h

/-- C10: when `n` does not exceed the current cache occupancy, get_latest
returns the last `n` frames passed to store_frame — newest first, over all
missions — for EVERY `mission_id` argument: the mission filter plays no
role on the cache path (it is applied only by the database fallback taken
when `n` exceeds the cache occupancy). -/
theorem C10_theorem (cs n : ℕ) (entries : List (CleanFrame × String × ℚ))
    (mid : String)
    (hn : n ≤ (storeAll cs entries).frame_cache.length) :
    getLatest (storeAll cs entries) n mid
      = (takeLast n (entries.map Prod.fst)).reverse := by
  have h := foldl_store_cache cs (storageInit cs) rfl [] (by simp [storageInit, takeLast]) entries
  unfold storeAll at *
  have hncs : n ≤ cs := by
    rw [h.1] at hn
    unfold takeLast at hn
    rw [List.length_drop] at hn
    omega
  unfold getLatest
  rw [if_pos hn, h.1]
  rw [show ([] : List CleanFrame) ++ entries.map Prod.fst = entries.map Prod.fst from rfl]
  rw [takeLast_takeLast n cs hncs]

/-- C10 witness: two frames stored under missions "a" and "b"; querying
the two newest frames under the unrelated mission id "zzz" returns both,
newest first. -/
theorem C10_witness :
    getLatest (storeAll 10
        [(histFrame 1 70, ("a", 0)), (histFrame 2 72, ("b", 1))]) 2 "zzz"
      = (takeLast 2 ([(histFrame 1 70, (("a" : String), (0 : ℚ))),
          (histFrame 2 72, ("b", 1))].map Prod.fst)).reverse :=
  C10_theorem 10 2 _ "zzz" (by simp +decide [storeAll, storeFrame,
    storageInit, appendBounded, takeLast, histFrame])

/-- C3 witness: the consistency invariant instantiated on the concrete
cleaning of `zeroPacketScaled` (0 repairs, invalid digest, quality
degraded). -/
theorem C3_witness :
    (cleanedZeroFrame.metadata.repairs.length = 0 →
      cleanedZeroFrame.metadata.quality
        = (if cleanedZeroFrame.metadata.checksum_valid then "high"
           else "degraded")) ∧
    (1 ≤ cleanedZeroFrame.metadata.repairs.length →
      cleanedZeroFrame.metadata.repairs.length ≤ 3 →
      cleanedZeroFrame.metadata.quality = "medium") ∧
    (3 < cleanedZeroFrame.metadata.repairs.length →
      cleanedZeroFrame.metadata.quality = "low") ∧
    (cleanedZeroFrame.metadata.checksum_valid = false →
      cleanedZeroFrame.metadata.quality ≠ "high") ∧
    (cleanedZeroFrame.metadata.repairs ≠ [] →
      cleanedZeroFrame.metadata.quality ≠ "high" ∧
      cleanedZeroFrame.metadata.quality ≠ "degraded") := by
  have hok : cleanPacket emptyCleaner (some zeroPacketScaled)
      = .ok (some cleanedZeroFrame, cleanedZeroState) := by
    simp +decide [cleanedZeroFrame, cleanedZeroState, cleanZeroRun,
      emptyCleaner, zeroPacketScaled, corruptPacket, zeroScalePlan,
      zeroPacket, encodeFrame, calcPriority, encodePayload, packetizerInit,
      pyLtQ, pyGtQ, zeroFrame, getVal, bind, Except.bind, pure, Except.pure,
      corruptField, distortValue, scaleFactors, Val.finite?, cleanPacket,
      cleanField, cleanFieldRate, interpolateField, VALID_RANGES, RATE_LIMITS,
      defaultValue, Val.isNumeric, appendBounded, takeLast, List.mapM]
  exact C3_theorem emptyCleaner zeroPacketScaled cleanedZeroFrame
    cleanedZeroState hok

/-- The clock enters an encoded packet only as the footer transmission
time. -/
theorem encodeFrame_clock (pz : Packetizer) (frame : Telem) (now : ℚ) :
    encodeFrame pz frame now
      = (encodeFrame pz frame 0).map (fun pr => (setTT pr.1 now, pr.2)) := by
  unfold encodeFrame
  rcases calcPriority frame with e | p <;>
    simp [bind, Except.bind, pure, Except.pure, Except.map]
  rcases encodePayload pz.encoding frame with e | pl <;>
    simp [bind, Except.bind, pure, Except.pure, Except.map, setTT]

/-- The channel turns a shifted transmission time into an equally shifted
transmission time and changes nothing else differently. -/
theorem corruptPacket_setTT (plan : CorruptPlan) (p : Packet) (t : ℚ) :
    corruptPacket plan (setTT p t)
      = (corruptPacket plan p).map (fun q => setTT q (t + plan.jitter)) := by
  unfold corruptPacket setTT
  by_cases hl : plan.lost <;> simp [hl]

/-- The Cleaner never reads the transmission time. -/
theorem cleanPacket_setTT (st : Cleaner) (p : Packet) (t : ℚ) :
    cleanPacket st (some (setTT p t)) = cleanPacket st (some p) := rfl

/-- Storing the same frame at different wall-clock times yields the same
storage up to `created_at`, from storages equal up to `created_at`. -/
theorem storeFrame_strip (s₁ s₂ : MissionStorage) (f : CleanFrame)
    (m : String) (t₁ t₂ : ℚ) (h : stripStore s₁ = stripStore s₂) :
    stripStore (storeFrame s₁ f m t₁) = stripStore (storeFrame s₂ f m t₂) := by
  have hcs : s₁.cache_size = s₂.cache_size := by
    simpa [stripStore] using congrArg MissionStorage.cache_size h
  have hfc : s₁.frame_cache = s₂.frame_cache := by
    simpa [stripStore] using congrArg MissionStorage.frame_cache h
  have han : s₁.anomalies = s₂.anomalies := by
    simpa [stripStore] using congrArg MissionStorage.anomalies h
  have htel : s₁.telemetry.map stripRow = s₂.telemetry.map stripRow := by
    simpa [stripStore] using congrArg MissionStorage.telemetry h
  have hlen : s₁.telemetry.length = s₂.telemetry.length := by
    have h₂ := congrArg List.length htel
    simpa using h₂
  simp [stripStore, storeFrame, hcs, hfc, han, hlen, htel, stripRow]

/-- One driver iteration preserves equality-up-to-`created_at` of pipeline
states, for arbitrary (different) clock readings. -/
theorem pipelineStep_strip (mission : String) (s₁ s₂ : PipeState) (f : Telem)
    (plan : CorruptPlan) (t1 t2 t1' t2' : ℚ)
    (h : stripState s₁ = stripState s₂) :
    (pipelineStep mission s₁ f plan t1 t2).map stripState
      = (pipelineStep mission s₂ f plan t1' t2').map stripState := by
  have hpz : s₁.pz = s₂.pz := by
    simpa [stripState] using congrArg PipeState.pz h
  have hcl : s₁.cl = s₂.cl := by
    simpa [stripState] using congrArg PipeState.cl h
  have hdet : s₁.det = s₂.det := by
    simpa [stripState] using congrArg PipeState.det h
  have hst : stripStore s₁.store = stripStore s₂.store := by
    simpa [stripState] using congrArg PipeState.store h
  unfold pipelineStep
  rw [hpz, hcl, hdet, encodeFrame_clock s₂.pz f t1, encodeFrame_clock s₂.pz f t1']
  rcases encodeFrame s₂.pz f 0 with e | pr
  · simp [Except.map, bind, Except.bind]
  simp only [Except.map, bind, Except.bind]
  rw [corruptPacket_setTT, corruptPacket_setTT]
  rcases corruptPacket plan pr.1 with _ | q
  · simp only [Option.map]
    rcases cleanPacket s₂.cl none with e | r
    · simp [bind, Except.bind]
    simp only [bind, Except.bind]
    rcases r with ⟨cf?, cl₂⟩
    rcases cf? with _ | cf
    · simp only [pure, Except.pure, Except.map]
      congr 1
      simp [stripState, PipeState.mk.injEq, hst]
    · dsimp only
      rcases analyzeFrame s₂.det cf with e | lr
      · simp [bind, Except.bind]
      · simp only [bind, Except.bind, pure, Except.pure, Except.map]
        congr 1
        simp only [stripState, PipeState.mk.injEq, true_and]
        exact storeFrame_strip _ _ _ _ _ _ hst
  · simp only [Option.map]
    rw [cleanPacket_setTT, cleanPacket_setTT]
    rcases cleanPacket s₂.cl (some q) with e | r
    · simp [bind, Except.bind]
    simp only [bind, Except.bind]
    rcases r with ⟨cf?, cl₂⟩
    rcases cf? with _ | cf
    · simp only [pure, Except.pure, Except.map]
      congr 1
      simp [stripState, PipeState.mk.injEq, hst]
    · dsimp only
      rcases analyzeFrame s₂.det cf with e | lr
      · simp [bind, Except.bind]
      · simp only [bind, Except.bind, pure, Except.pure, Except.map]
        congr 1
        simp only [stripState, PipeState.mk.injEq, true_and]
        exact storeFrame_strip _ _ _ _ _ _ hst

/-- The driver loop preserves equality-up-to-`created_at` under any two
clock streams. -/
theorem runPipelineAux_strip (mission : String) (plans : ℕ → CorruptPlan)
    (c₁ c₂ : ℕ → ℚ × ℚ) :
    ∀ (frames : List Telem) (i : ℕ) (s₁ s₂ : PipeState),
      stripState s₁ = stripState s₂ →
      (runPipelineAux mission plans c₁ frames i s₁).map stripState
        = (runPipelineAux mission plans c₂ frames i s₂).map stripState := by
  intro frames
  induction frames with
  | nil =>
    intro i s₁ s₂ h
    simpa [runPipelineAux, Except.map] using h
  | cons f rest ih =>
    intro i s₁ s₂ h
    simp only [runPipelineAux, bind, Except.bind]
    have hstep := pipelineStep_strip mission s₁ s₂ f (plans i) (c₁ i).1
      (c₁ i).2 (c₂ i).1 (c₂ i).2 h
    rcases h₁ : pipelineStep mission s₁ f (plans i) (c₁ i).1 (c₁ i).2
      with e₁ | st₁ <;>
      rcases h₂ : pipelineStep mission s₂ f (plans i) (c₂ i).1 (c₂ i).2
        with e₂ | st₂ <;>
      rw [h₁, h₂] at hstep <;> simp only [Except.map] at hstep <;>
      simp only []
    · injection hstep with hstep
      rw [hstep]
    · exact Except.noConfusion hstep
    · exact Except.noConfusion hstep
    · injection hstep with hstep
      exact ih (i + 1) st₁ st₂ hstep

/-- C1 (amended): for a fixed seed — hence a fixed corruption-plan
sequence — two complete pipeline runs over the same frame sequence
produce identical archives up to the `created_at` column: the anomalies
table and every column of every telemetry row other than `created_at`
(mission_id, timestamp, frame_id, the serialized frame_data, quality,
has_anomalies) are byte-identical, however the wall clock read during the
two runs; `created_at` itself is the wall-clock write time and so differs
between runs.  Equality of the `stripState` images states exactly this. -/
theorem C1_theorem (mission : String) (frames : List Telem)
    (plans : ℕ → CorruptPlan) (c₁ c₂ : ℕ → ℚ × ℚ)
    (history_size det_history_size cache_size : ℕ) (z_thr : ℚ) :
    (runPipeline mission frames plans c₁
        history_size det_history_size cache_size z_thr).map stripState
      = (runPipeline mission frames plans c₂
          history_size det_history_size cache_size z_thr).map stripState :=
  runPipelineAux_strip mission plans c₁ c₂ frames 0 _ _ rfl

/-- C1 counterexample: the same single-frame run executed at wall-clock
write time 5 and at wall-clock write time 7 stores telemetry rows whose
`created_at` columns differ (5 versus 7) — the archived records are not
byte-identical as the claim demands, precisely in the `created_at`
column. -/
theorem C1_counterexample :
    ((runPipeline "m1" [demoFrame] (fun _ => idPlan) (fun _ => (0, 5))
        10 50 100 3).map (fun st =>
          st.store.telemetry.map (fun r => r.created_at))) = .ok [5] ∧
    ((runPipeline "m1" [demoFrame] (fun _ => idPlan) (fun _ => (0, 7))
        10 50 100 3).map (fun st =>
          st.store.telemetry.map (fun r => r.created_at))) = .ok [7] ∧
    (5 : ℚ) ≠ 7 := by
  refine ⟨?_, ?_, by norm_num⟩ <;>
    simp +decide [runPipeline, runPipelineAux, pipelineStep, demoFrame,
      idPlan, encodeFrame, calcPriority, encodePayload, packetizerInit,
      pyLtQ, pyGtQ, getVal, bind, Except.bind, pure, Except.pure,
      corruptPacket, cleanPacket, cleanField, cleanFieldRate,
      interpolateField, VALID_RANGES, RATE_LIMITS, defaultValue,
      Val.isNumeric, Val.finite?, appendBounded, takeLast, List.mapM,
      analyzeFrame, detectThreshold, detectDerivative, detectStatistical,
      updateHistory, THRESHOLDS, DERIVATIVE_LIMITS, alookup, obsMean,
      obsVariance, zScoreGt, fmt2, storeFrame, storageInit, Except.map]
